import Mathlib

/-!
Verification of the APIRequestBuilder (src/APIBuilder.ts): a shallow
embedding of the builder's mutable configuration state, its chained
setters, and the `execute` operation that validates the state and hands a
request descriptor to the HTTP transport (axios in the source).

Modelling choices:
* The TypeScript class's mutable fields become a record `APIRequestBuilder α`
  (`α` is the type of body payloads, the source's `any`); each method that
  mutates `this` and returns `this` becomes a function from state to state.
* JS objects used as string maps (`headers`) become association lists with
  insertion-order-preserving update (`setHeader`): assigning to an existing
  key overwrites it in place, assigning a fresh key appends it.
* The transport (`axios`) is a parameter `RequestDescriptor α → Except ε ρ`.
  `execute` is instrumented to return, besides its result, the list of
  descriptors passed to the transport (so "transport invoked n times" is the
  length of that list) and the final builder state.
-/

/-- The six admissible axios response types (a string-literal union in the
source); the source's default is `json`. -/
inductive ResponseType : Type
  | arraybuffer
  | blob
  | document
  | json
  | text
  | stream
deriving DecidableEq, Repr

/-- Query-parameter values: `Record<string, string | number>` in the source. -/
inductive QueryValue : Type
  | str (s : String)
  | num (n : Int)
deriving DecidableEq, Repr

/-- JS object assignment `obj[k] = v` on a string map without duplicate keys:
overwrite the entry for `k` in place if present, else append `(k, v)`. -/
def setHeader : List (String × String) → String → String → List (String × String)
  | [], k, v => [(k, v)]
  | (a, b) :: tl, k, v => if a = k then (k, v) :: tl else (a, b) :: setHeader tl k v

/-- JS object read `obj[k]` on a string map: the value at the first entry
with key `k`, if any. -/
def getHeader : List (String × String) → String → Option String
  | [], _ => none
  | (a, b) :: tl, k => if a = k then some b else getHeader tl k

/-- The mutable configuration state of an `APIRequestBuilder` instance:
one field per private field of the TypeScript class, including the stored
constructor parameter `token`. -/
structure APIRequestBuilder (α : Type) : Type where
  method : String
  baseUrl : String
  resource : String
  headers : List (String × String)
  data : Option α
  queryParams : List (String × QueryValue)
  responseType : ResponseType
  token : Option String
deriving DecidableEq, Repr

namespace APIRequestBuilder

/-- The constructor: stores `baseUrl` and `token`, initialises the other
fields to their declared defaults, and, when the token is truthy (present
and non-empty), sets the `Authorization` header to the bearer string. -/
def construct (α : Type) (baseUrl : String) (token : Option String) :
    APIRequestBuilder α where
  method := "GET"
  baseUrl := baseUrl
  resource := ""
  headers :=
    match token with
    | some t => if t = "" then [] else setHeader [] "Authorization" ("Bearer " ++ t)
    | none => []
  data := none
  queryParams := []
  responseType := ResponseType.json
  token := token

variable {α : Type}

/-- `get()`: sets the method to GET. -/
def get (s : APIRequestBuilder α) : APIRequestBuilder α :=
  { s with method := "GET" }

/-- `post(data)`: sets the method to POST and the body to the given value. -/
def post (s : APIRequestBuilder α) (d : α) : APIRequestBuilder α :=
  { s with method := "POST", data := some d }

/-- `put(data)`: sets the method to PUT and the body to the given value. -/
def put (s : APIRequestBuilder α) (d : α) : APIRequestBuilder α :=
  { s with method := "PUT", data := some d }

/-- `delete()`: sets the method to DELETE. -/
def delete (s : APIRequestBuilder α) : APIRequestBuilder α :=
  { s with method := "DELETE" }

/-- `patch(data)`: sets the method to PATCH and the body to the given value. -/
def patch (s : APIRequestBuilder α) (d : α) : APIRequestBuilder α :=
  { s with method := "PATCH", data := some d }

/-- `setBaseUrl(url)`: replaces the base URL. -/
def setBaseUrl (s : APIRequestBuilder α) (url : String) : APIRequestBuilder α :=
  { s with baseUrl := url }

/-- `setRelativePath(resourcePath)`: replaces the resource path. -/
def setRelativePath (s : APIRequestBuilder α) (resourcePath : String) :
    APIRequestBuilder α :=
  { s with resource := resourcePath }

/-- `setQueryParameters(params)`: replaces the whole query-parameter map. -/
def setQueryParameters (s : APIRequestBuilder α)
    (params : List (String × QueryValue)) : APIRequestBuilder α :=
  { s with queryParams := params }

/-- `setToken(token)`: assigns `headers.Authorization = "Bearer " + token`
(unconditionally; the stored `token` field is not updated). -/
def setToken (s : APIRequestBuilder α) (token : String) : APIRequestBuilder α :=
  { s with headers := setHeader s.headers "Authorization" ("Bearer " ++ token) }

/-- `setResponseType(type)`: replaces the response type. -/
def setResponseType (s : APIRequestBuilder α) (type : ResponseType) :
    APIRequestBuilder α :=
  { s with responseType := type }

end APIRequestBuilder

/-- The request descriptor handed to the transport: the argument object of
the `axios({...})` call in `execute`. -/
structure RequestDescriptor (α : Type) : Type where
  method : String
  url : String
  data : Option α
  headers : List (String × String)
  params : List (String × QueryValue)
  responseType : ResponseType
deriving DecidableEq, Repr

/-- The descriptor `execute` builds from the current state: the URL is the
raw concatenation of `baseUrl` and `resource`; every other field is copied
from the state verbatim (the body `data` is passed whatever the method). -/
def mkDescriptor {α : Type} (s : APIRequestBuilder α) : RequestDescriptor α where
  method := s.method
  url := s.baseUrl ++ s.resource
  data := s.data
  headers := s.headers
  params := s.queryParams
  responseType := s.responseType

/-- `validateRequestComponents`: returns the error message of the exception
thrown when the base URL is falsy (the empty string), and `none` otherwise. -/
def validateRequestComponents {α : Type} (s : APIRequestBuilder α) : Option String :=
  if s.baseUrl = "" then
    some "Base URL is missing. Use setBaseUrl() to set it."
  else
    none

/-- The ways `execute` can fail: the synchronous validation error, or an
error value produced by the transport and rethrown unchanged. -/
inductive ExecError (ε : Type) : Type
  | missingConfiguration (msg : String)
  | transport (e : ε)
deriving DecidableEq, Repr

/-- The observable outcome of one `execute()` call: its returned value or
error, the list of descriptors the transport was invoked with (in order),
and the builder state after the call. -/
structure ExecResult (α ε ρ : Type) : Type where
  result : Except (ExecError ε) ρ
  calls : List (RequestDescriptor α)
  finalState : APIRequestBuilder α

/-- `execute()`: validates the state; on validation failure fails without
touching the transport; otherwise invokes the transport once on the
descriptor built from the current state, returning its response on success
and rethrowing its error unchanged on failure. No field of the state is
assigned anywhere in `execute`, so the final state is the input state. -/
def execute {α ε ρ : Type} (s : APIRequestBuilder α)
    (transport : RequestDescriptor α → Except ε ρ) : ExecResult α ε ρ :=
  match validateRequestComponents s with
  | some msg =>
    { result := Except.error (ExecError.missingConfiguration msg)
      calls := []
      finalState := s }
  | none =>
    match transport (mkDescriptor s) with
    | Except.ok r =>
      { result := Except.ok r
        calls := [mkDescriptor s]
        finalState := s }
    | Except.error e =>
      { result := Except.error (ExecError.transport e)
        calls := [mkDescriptor s]
        finalState := s }

/-! ### Helper lemmas on the header map -/

theorem getHeader_setHeader_self (hs : List (String × String)) (k v : String) :
    getHeader (setHeader hs k v) k = some v := by
  induction hs with
  | nil => simp [setHeader, getHeader]
  | cons p tl ih =>
    obtain ⟨a, b⟩ := p
    by_cases hak : a = k
    · simp [setHeader, getHeader, hak]
    · simp [setHeader, getHeader, hak, ih]

theorem getHeader_setHeader_other (hs : List (String × String)) (k v k' : String)
    (hne : k' ≠ k) : getHeader (setHeader hs k v) k' = getHeader hs k' := by
  induction hs with
  | nil => simp [setHeader, getHeader, Ne.symm hne]
  | cons p tl ih =>
    obtain ⟨a, b⟩ := p
    by_cases hak : a = k
    · subst hak
      simp [setHeader, getHeader, Ne.symm hne]
    · simp only [setHeader, if_neg hak]
      by_cases hak' : a = k'
      · simp [getHeader, hak']
      · simp [getHeader, hak', ih]

theorem setHeader_setHeader_self (hs : List (String × String)) (k v₁ v₂ : String) :
    setHeader (setHeader hs k v₁) k v₂ = setHeader hs k v₂ := by
  induction hs with
  | nil => simp [setHeader]
  | cons p tl ih =>
    obtain ⟨a, b⟩ := p
    by_cases hak : a = k
    · simp [setHeader, hak]
    · simp [setHeader, hak, ih]

/-- With a non-empty base URL, the transport is invoked exactly once, on the
descriptor built from the current state, whatever the transport returns. -/
theorem execute_calls_eq {α ε ρ : Type} (s : APIRequestBuilder α)
    (transport : RequestDescriptor α → Except ε ρ) (h : s.baseUrl ≠ "") :
    (execute s transport).calls = [mkDescriptor s] := by
  cases htr : transport (mkDescriptor s) <;>
    simp [execute, validateRequestComponents, h, htr]

/-! ### Claim theorems -/

/-- Claim C1: for every builder state with empty `baseUrl`, `execute()` fails
with a `MissingConfiguration` error before any transport call (zero
transport invocations), and the message names the missing field ("Base URL")
and the setter that fixes it ("setBaseUrl"). -/
theorem C1_missing_baseUrl_fails_before_transport {α ε ρ : Type}
    (s : APIRequestBuilder α) (transport : RequestDescriptor α → Except ε ρ)
    (h : s.baseUrl = "") :
    ∃ msg : String,
      (execute s transport).result = Except.error (ExecError.missingConfiguration msg) ∧
      (execute s transport).calls = [] ∧
      (∃ l r : String, msg = l ++ "Base URL" ++ r) ∧
      (∃ l r : String, msg = l ++ "setBaseUrl" ++ r) := by
  refine ⟨"Base URL is missing. Use setBaseUrl() to set it.", ?_, ?_,
    ⟨"", " is missing. Use setBaseUrl() to set it.", by decide⟩,
    ⟨"Base URL is missing. Use ", "() to set it.", by decide⟩⟩
  · simp [execute, validateRequestComponents, h]
  · simp [execute, validateRequestComponents, h]

/-- Witness for C1 at the concrete builder constructed with an empty base
URL and a transport double that would succeed if called. -/
theorem C1_missing_baseUrl_fails_before_transport_witness :
    ∃ msg : String,
      (execute (APIRequestBuilder.construct Nat "" none)
          (fun _ => (Except.ok 0 : Except Nat Nat))).result
        = Except.error (ExecError.missingConfiguration msg) ∧
      (execute (APIRequestBuilder.construct Nat "" none)
          (fun _ => (Except.ok 0 : Except Nat Nat))).calls = [] ∧
      (∃ l r : String, msg = l ++ "Base URL" ++ r) ∧
      (∃ l r : String, msg = l ++ "setBaseUrl" ++ r) :=
  C1_missing_baseUrl_fails_before_transport (APIRequestBuilder.construct Nat "" none)
    (fun _ => (Except.ok 0 : Except Nat Nat)) rfl

/-- Claim C2: with a non-empty `baseUrl`, `execute()` invokes the transport
exactly once, with the descriptor built from the current state, and returns
the transport's response unchanged on success; in particular the spec's
end-to-end example hands the transport exactly the listed descriptor. -/
theorem C2_execute_invokes_transport_once {α ε ρ : Type}
    (s : APIRequestBuilder α) (transport : RequestDescriptor α → Except ε ρ)
    (h : s.baseUrl ≠ "") :
    (execute s transport).calls = [mkDescriptor s] ∧
    (∀ r : ρ, transport (mkDescriptor s) = Except.ok r →
      (execute s transport).result = Except.ok r) ∧
    (∀ t' : RequestDescriptor Nat → Except ε ρ,
      (execute ((((APIRequestBuilder.construct Nat "https://api.example.com"
            (some "T")).get).setRelativePath "/users").setQueryParameters
            [("limit", QueryValue.num 10)]) t').calls =
        [{ method := "GET", url := "https://api.example.com/users", data := none,
           headers := [("Authorization", "Bearer T")],
           params := [("limit", QueryValue.num 10)],
           responseType := ResponseType.json }]) := by
  refine ⟨execute_calls_eq s transport h, ?_, ?_⟩
  · intro r hr
    simp [execute, validateRequestComponents, h, hr]
  · intro t'
    rw [execute_calls_eq _ t' (by decide)]
    decide

/-- Witness for C2 at a concrete builder with non-empty base URL and a
transport double returning a fixed response. -/
theorem C2_execute_invokes_transport_once_witness :
    (execute (APIRequestBuilder.construct Nat "u" none)
        (fun _ => (Except.ok 7 : Except Nat Nat))).calls
      = [mkDescriptor (APIRequestBuilder.construct Nat "u" none)] ∧
    (∀ r : Nat, (fun _ => (Except.ok 7 : Except Nat Nat))
        (mkDescriptor (APIRequestBuilder.construct Nat "u" none)) = Except.ok r →
      (execute (APIRequestBuilder.construct Nat "u" none)
        (fun _ => (Except.ok 7 : Except Nat Nat))).result = Except.ok r) ∧
    (∀ t' : RequestDescriptor Nat → Except Nat Nat,
      (execute ((((APIRequestBuilder.construct Nat "https://api.example.com"
            (some "T")).get).setRelativePath "/users").setQueryParameters
            [("limit", QueryValue.num 10)]) t').calls =
        [{ method := "GET", url := "https://api.example.com/users", data := none,
           headers := [("Authorization", "Bearer T")],
           params := [("limit", QueryValue.num 10)],
           responseType := ResponseType.json }]) :=
  C2_execute_invokes_transport_once (APIRequestBuilder.construct Nat "u" none)
    (fun _ => (Except.ok 7 : Except Nat Nat)) (by decide)

/-- Claim C3: the `url` of every descriptor handed to the transport is the
raw concatenation of `baseUrl` and `resource`; with an empty resource path
the url is exactly `baseUrl`. -/
theorem C3_url_is_raw_concatenation {α ε ρ : Type}
    (s : APIRequestBuilder α) (transport : RequestDescriptor α → Except ε ρ)
    (h : s.baseUrl ≠ "") :
    ∀ d ∈ (execute s transport).calls,
      d.url = s.baseUrl ++ s.resource ∧ (s.resource = "" → d.url = s.baseUrl) := by
  intro d hd
  rw [execute_calls_eq s transport h, List.mem_singleton] at hd
  subst hd
  refine ⟨rfl, fun hr => ?_⟩
  show s.baseUrl ++ s.resource = s.baseUrl
  rw [hr, String.append_empty]

/-- Witness for C3 at a concrete builder with empty resource path: the one
descriptor handed to the transport has url equal to the raw concatenation,
here the base URL itself. -/
theorem C3_url_is_raw_concatenation_witness :
    (mkDescriptor (APIRequestBuilder.construct Nat "https://api.example.com" none)).url
        = "https://api.example.com" ++ "" ∧
    (mkDescriptor (APIRequestBuilder.construct Nat "https://api.example.com" none)).url
        = "https://api.example.com" := by
  have h := C3_url_is_raw_concatenation
      (APIRequestBuilder.construct Nat "https://api.example.com" none)
      (fun _ => (Except.ok 0 : Except Nat Nat)) (by decide)
      (mkDescriptor (APIRequestBuilder.construct Nat "https://api.example.com" none))
      (by decide)
  exact ⟨h.1, h.2 rfl⟩

/-- Counterexample to claim C4: after `post(5)` then `get()`, the descriptor
handed to the transport has method GET yet still carries `data = some 5` —
the body is neither cleared nor omitted for non-body methods; `execute`
copies `this.data` into the descriptor unconditionally. -/
theorem C4_counterexample_body_present_for_get :
    ((execute (((APIRequestBuilder.construct Nat "u" none).post 5).get)
        (fun _ => (Except.ok 0 : Except Nat Nat))).calls.map
        (fun d => (d.method, d.data)) = [("GET", some 5)]) ∧
    some 5 ≠ (none : Option Nat) := by
  constructor
  · decide
  · decide

/-- Claim C4 (amended): the request descriptor handed to the transport
always carries the builder's current body field unchanged, for every method
(GET and DELETE included); `execute` never ignores, clears or omits the body
based on the method. -/
theorem C4_body_always_passed_to_transport {α ε ρ : Type}
    (s : APIRequestBuilder α) (transport : RequestDescriptor α → Except ε ρ)
    (h : s.baseUrl ≠ "") :
    ∀ d ∈ (execute s transport).calls, d.data = s.data := by
  intro d hd
  rw [execute_calls_eq s transport h, List.mem_singleton] at hd
  subst hd
  rfl

/-- Witness for the amended C4 at the concrete counterexample builder: the
descriptor handed to the transport still carries body 5 under method GET. -/
theorem C4_body_always_passed_to_transport_witness :
    (mkDescriptor (((APIRequestBuilder.construct Nat "u" none).post 5).get)).data
      = some 5 := by
  have h := C4_body_always_passed_to_transport
      (((APIRequestBuilder.construct Nat "u" none).post 5).get)
      (fun _ => (Except.ok 0 : Except Nat Nat)) (by decide)
      (mkDescriptor (((APIRequestBuilder.construct Nat "u" none).post 5).get))
      (by decide)
  exact h

/-- Claim C5: every configuration setter fully replaces its field, so the
last call to a given setter wins; in particular two successive
`setQueryParameters` calls leave exactly the second mapping (no merging). -/
theorem C5_last_call_wins {α : Type} (s : APIRequestBuilder α)
    (p₁ p₂ : List (String × QueryValue)) (u₁ u₂ r₁ r₂ t₁ t₂ : String)
    (ty₁ ty₂ : ResponseType) (b₁ b₂ : α) :
    ((s.setQueryParameters p₁).setQueryParameters p₂ = s.setQueryParameters p₂) ∧
    ((s.setQueryParameters p₂).queryParams = p₂) ∧
    ((s.setBaseUrl u₁).setBaseUrl u₂ = s.setBaseUrl u₂) ∧
    ((s.setRelativePath r₁).setRelativePath r₂ = s.setRelativePath r₂) ∧
    ((s.setResponseType ty₁).setResponseType ty₂ = s.setResponseType ty₂) ∧
    ((s.setToken t₁).setToken t₂ = s.setToken t₂) ∧
    ((s.post b₁).post b₂ = s.post b₂) ∧
    ((s.put b₁).put b₂ = s.put b₂) ∧
    ((s.patch b₁).patch b₂ = s.patch b₂) := by
  refine ⟨rfl, rfl, rfl, rfl, rfl, ?_, rfl, rfl, rfl⟩
  simp [APIRequestBuilder.setToken, setHeader_setHeader_self]

/-- Claim C6: constructing with a non-empty token yields exactly the
Authorization entry `"Bearer " + t`, and `setToken x` overwrites the
Authorization header to `"Bearer " + x` while every other header key reads
the same as before. -/
theorem C6_token_sets_authorization {α : Type} (u t x : String)
    (s : APIRequestBuilder α) (h : t ≠ "") :
    (APIRequestBuilder.construct α u (some t)).headers
        = [("Authorization", "Bearer " ++ t)] ∧
    getHeader (s.setToken x).headers "Authorization" = some ("Bearer " ++ x) ∧
    (∀ k : String, k ≠ "Authorization" →
      getHeader (s.setToken x).headers k = getHeader s.headers k) := by
  refine ⟨?_, ?_, ?_⟩
  · simp [APIRequestBuilder.construct, h, setHeader]
  · simp [APIRequestBuilder.setToken, getHeader_setHeader_self]
  · intro k hk
    simp [APIRequestBuilder.setToken, getHeader_setHeader_other _ _ _ _ hk]

/-- Witness for C6 with token "T", a builder carrying an unrelated header
key read before and after `setToken "x"`. -/
theorem C6_token_sets_authorization_witness :
    (APIRequestBuilder.construct Nat "u" (some "T")).headers
        = [("Authorization", "Bearer " ++ "T")] ∧
    getHeader ((APIRequestBuilder.construct Nat "u" none).setToken "x").headers
        "Authorization" = some ("Bearer " ++ "x") ∧
    (∀ k : String, k ≠ "Authorization" →
      getHeader ((APIRequestBuilder.construct Nat "u" none).setToken "x").headers k
        = getHeader (APIRequestBuilder.construct Nat "u" none).headers k) :=
  C6_token_sets_authorization "u" "T" "x"
    (APIRequestBuilder.construct Nat "u" none) (by decide)

/-- Claim C7: `post(b)` then `get()` leaves method GET and body `b` (method
selection never clears the body), and each configuration method touches only
its own field(s): `get`/`delete` only the method, `setBaseUrl` only the base
URL, `setRelativePath` only the resource path, `setResponseType` only the
response type. -/
theorem C7_method_calls_keep_body {α : Type} (s : APIRequestBuilder α) (b : α)
    (u r : String) (ty : ResponseType) :
    (((s.post b).get).method = "GET") ∧
    (((s.post b).get).data = some b) ∧
    (s.get = { s with method := "GET" }) ∧
    (s.delete = { s with method := "DELETE" }) ∧
    (s.setBaseUrl u = { s with baseUrl := u }) ∧
    (s.setRelativePath r = { s with resource := r }) ∧
    (s.setResponseType ty = { s with responseType := ty }) :=
  ⟨rfl, rfl, rfl, rfl, rfl, rfl, rfl⟩

/-- Claim C8: when the transport fails with error `e`, `execute()` fails
with that very value (wrapped in the transport-error case of the result sum,
not altered), and exactly one transport request was attempted. -/
theorem C8_transport_error_propagated {α ε ρ : Type}
    (s : APIRequestBuilder α) (transport : RequestDescriptor α → Except ε ρ)
    (e : ε) (h : s.baseUrl ≠ "")
    (he : transport (mkDescriptor s) = Except.error e) :
    (execute s transport).result = Except.error (ExecError.transport e) ∧
    (execute s transport).calls = [mkDescriptor s] := by
  constructor
  · simp [execute, validateRequestComponents, h, he]
  · exact execute_calls_eq s transport h

/-- Witness for C8 with a transport double that always fails with error 7. -/
theorem C8_transport_error_propagated_witness :
    (execute (APIRequestBuilder.construct Nat "u" none)
        (fun _ => (Except.error 7 : Except Nat Nat))).result
      = Except.error (ExecError.transport 7) ∧
    (execute (APIRequestBuilder.construct Nat "u" none)
        (fun _ => (Except.error 7 : Except Nat Nat))).calls
      = [mkDescriptor (APIRequestBuilder.construct Nat "u" none)] :=
  C8_transport_error_propagated (APIRequestBuilder.construct Nat "u" none)
    (fun _ => (Except.error 7 : Except Nat Nat)) 7 (by decide) rfl

/-- Claim C9: `execute()` never changes the configuration state, whether it
succeeds, fails validation, or the transport fails — the builder can be
reused afterwards. -/
theorem C9_execute_preserves_state {α ε ρ : Type} (s : APIRequestBuilder α)
    (transport : RequestDescriptor α → Except ε ρ) :
    (execute s transport).finalState = s := by
  cases hv : validateRequestComponents s with
  | some msg => simp [execute, hv]
  | none => cases htr : transport (mkDescriptor s) <;> simp [execute, hv, htr]

/-- Claim C10: the constructor tests the token for truthiness, so an
empty-string token (like an absent one) sets no header at all, while
`setToken ""` assigns the Authorization header unconditionally, to the
string "Bearer " followed by nothing. -/
theorem C10_empty_token_asymmetry {α : Type} (u : String)
    (s : APIRequestBuilder α) :
    (APIRequestBuilder.construct α u (some "")).headers = [] ∧
    (APIRequestBuilder.construct α u none).headers = [] ∧
    getHeader (s.setToken "").headers "Authorization" = some "Bearer " := by
  refine ⟨rfl, rfl, ?_⟩
  show getHeader (setHeader s.headers "Authorization" ("Bearer " ++ "")) "Authorization"
      = some "Bearer "
  rw [getHeader_setHeader_self]
  decide
